import Mathlib

set_option maxRecDepth 4000000

/-!
Verification of the integrity-checked S3 transfer service
(`src/services/s3_services.py`, `src/scripts/upload_file_to_s3.py`,
`src/scripts/download_file_from_s3.py`).

The embedding models bytes as `Nat` (values `< 256`), files as an
association list from path to byte content, and the S3 backend as an
association list from bucket name to an association list from object key
to stored object (data plus string metadata).  Python exceptions are an
`Except PyError` result; a function that catches an exception and returns
normally yields `.ok`.  Remote calls issued by an operation are recorded
in a trace list so that short-circuiting claims can be stated.

`hashlib.md5` is modelled by its documented semantics: `update` appends
bytes to the accumulated buffer and `hexdigest` is the (real, executable)
MD5 of the accumulated buffer, implemented below from RFC 1321 on `Nat`
with explicit reduction modulo `2 ^ 32`.
-/

/-! ## MD5 (RFC 1321) over byte lists -/

def add32 (a b : Nat) : Nat := (a + b) % 4294967296

def not32 (x : Nat) : Nat := Nat.xor x 4294967295

def rotl32 (x s : Nat) : Nat :=
  (Nat.shiftLeft x s % 4294967296) ||| Nat.shiftRight x (32 - s)

def md5K : List Nat :=
  [0xd76aa478, 0xe8c7b756, 0x242070db, 0xc1bdceee,
   0xf57c0faf, 0x4787c62a, 0xa8304613, 0xfd469501,
   0x698098d8, 0x8b44f7af, 0xffff5bb1, 0x895cd7be,
   0x6b901122, 0xfd987193, 0xa679438e, 0x49b40821,
   0xf61e2562, 0xc040b340, 0x265e5a51, 0xe9b6c7aa,
   0xd62f105d, 0x02441453, 0xd8a1e681, 0xe7d3fbc8,
   0x21e1cde6, 0xc33707d6, 0xf4d50d87, 0x455a14ed,
   0xa9e3e905, 0xfcefa3f8, 0x676f02d9, 0x8d2a4c8a,
   0xfffa3942, 0x8771f681, 0x6d9d6122, 0xfde5380c,
   0xa4beea44, 0x4bdecfa9, 0xf6bb4b60, 0xbebfbc70,
   0x289b7ec6, 0xeaa127fa, 0xd4ef3085, 0x04881d05,
   0xd9d4d039, 0xe6db99e5, 0x1fa27cf8, 0xc4ac5665,
   0xf4292244, 0x432aff97, 0xab9423a7, 0xfc93a039,
   0x655b59c3, 0x8f0ccc92, 0xffeff47d, 0x85845dd1,
   0x6fa87e4f, 0xfe2ce6e0, 0xa3014314, 0x4e0811a1,
   0xf7537e82, 0xbd3af235, 0x2ad7d2bb, 0xeb86d391]

def md5Shift : List Nat :=
  [7, 12, 17, 22, 7, 12, 17, 22, 7, 12, 17, 22, 7, 12, 17, 22,
   5, 9, 14, 20, 5, 9, 14, 20, 5, 9, 14, 20, 5, 9, 14, 20,
   4, 11, 16, 23, 4, 11, 16, 23, 4, 11, 16, 23, 4, 11, 16, 23,
   6, 10, 15, 21, 6, 10, 15, 21, 6, 10, 15, 21, 6, 10, 15, 21]

def md5F (i b c d : Nat) : Nat :=
  if i < 16 then (b &&& c) ||| (not32 b &&& d)
  else if i < 32 then (d &&& b) ||| (not32 d &&& c)
  else if i < 48 then (b ^^^ c) ^^^ d
  else c ^^^ (b ||| not32 d)

def md5Gidx (i : Nat) : Nat :=
  if i < 16 then i
  else if i < 32 then (5 * i + 1) % 16
  else if i < 48 then (3 * i + 5) % 16
  else 7 * i % 16

def md5Step (m : List Nat) (st : Nat × Nat × Nat × Nat) (i : Nat) :
    Nat × Nat × Nat × Nat :=
  match st with
  | (a, b, c, d) =>
    let f := add32 (add32 (add32 a (md5F i b c d)) (md5K.getD i 0))
      (m.getD (md5Gidx i) 0)
    (d, add32 b (rotl32 f (md5Shift.getD i 0)), b, c)

def md5Compress (st : Nat × Nat × Nat × Nat) (m : List Nat) :
    Nat × Nat × Nat × Nat :=
  match st, (List.range 64).foldl (md5Step m) st with
  | (a0, b0, c0, d0), (a, b, c, d) =>
    (add32 a0 a, add32 b0 b, add32 c0 c, add32 d0 d)

def bytesToWords : List Nat → List Nat
  | b0 :: b1 :: b2 :: b3 :: rest =>
      (b0 + 256 * b1 + 65536 * b2 + 16777216 * b3) :: bytesToWords rest
  | _ => []

def toLEBytes : Nat → Nat → List Nat
  | 0, _ => []
  | n + 1, x => x % 256 :: toLEBytes n (x / 256)

def md5Pad (msg : List Nat) : List Nat :=
  msg ++ [128] ++ List.replicate ((119 - msg.length % 64) % 64) 0 ++
    toLEBytes 8 (8 * msg.length % 18446744073709551616)

def chunksOfAux : Nat → Nat → List Nat → List (List Nat)
  | 0, _, _ => []
  | _, _, [] => []
  | fuel + 1, n, l => List.take n l :: chunksOfAux fuel n (List.drop n l)

/-- Split a byte list into successive chunks of `n` bytes (the last chunk
may be shorter), as the successive results of `f.read(n)` in Python. -/
def chunksOf (n : Nat) (l : List Nat) : List (List Nat) :=
  chunksOfAux l.length n l

def md5Bytes (msg : List Nat) : List Nat :=
  match (chunksOf 16 (bytesToWords (md5Pad msg))).foldl md5Compress
      (1732584193, 4023233417, 2562383102, 271733878) with
  | (a, b, c, d) => toLEBytes 4 a ++ toLEBytes 4 b ++ toLEBytes 4 c ++ toLEBytes 4 d

def hexDigitChar : Nat → Char
  | 0 => '0' | 1 => '1' | 2 => '2' | 3 => '3' | 4 => '4'
  | 5 => '5' | 6 => '6' | 7 => '7' | 8 => '8' | 9 => '9'
  | 10 => 'a' | 11 => 'b' | 12 => 'c' | 13 => 'd' | 14 => 'e'
  | _ => 'f'

def bytesToHex : List Nat → List Char
  | [] => []
  | b :: rest => hexDigitChar (b / 16 % 16) :: hexDigitChar (b % 16) :: bytesToHex rest

/-- Lowercase hex MD5 digest of a byte list, hashing the whole content at
once. -/
def md5Hex (msg : List Nat) : String := String.mk (bytesToHex (md5Bytes msg))

/-! ## Data model: local filesystem, S3 backend, Python exceptions -/

/-- Python exceptions that the repository catches or raises. -/
inductive PyError
  | fileNotFoundError
  | s3UploadFailedError
  | clientError (code : String)
  | keyError
deriving DecidableEq, Repr

/-- A stored S3 object: its bytes and its string metadata map
(timestamps are not modelled). -/
structure S3Object where
  data : List Nat
  metadata : List (String × String)
deriving DecidableEq, Repr

/-- The S3 backend: bucket name to (object key to object), plus the
buckets for which access is denied (HTTP 403). -/
structure S3State where
  buckets : List (String × List (String × S3Object))
  denied : List String
deriving DecidableEq, Repr

/-- The local filesystem: path to byte content. -/
abbrev FileSystem := List (String × List Nat)

def lookupObject (s3 : S3State) (bucket key : String) : Option S3Object :=
  match s3.buckets.lookup bucket with
  | none => none
  | some objs => objs.lookup key

/-- `head_bucket`: succeeds when the bucket exists and is accessible,
raises ClientError 403 when access is denied, 404 when the bucket is
missing. -/
def head_bucket (s3 : S3State) (bucket : String) : Except PyError Unit :=
  if bucket ∈ s3.denied then .error (.clientError "403")
  else match s3.buckets.lookup bucket with
    | some _ => .ok ()
    | none => .error (.clientError "404")

/-- `download_file`: fetch the object and write its bytes at the local
path; ClientError 404 when the bucket or the key is missing, 403 when
access is denied. -/
def s3_download_file (s3 : S3State) (fs : FileSystem)
    (bucket key path : String) : Except PyError FileSystem :=
  if bucket ∈ s3.denied then .error (.clientError "403")
  else match lookupObject s3 bucket key with
    | none => .error (.clientError "404")
    | some obj => .ok ((path, obj.data) :: fs)

/-- `upload_file`: store the object together with the given metadata;
boto3 wraps backend rejection (missing bucket, denied access) in
S3UploadFailedError. -/
def s3_upload_file (s3 : S3State) (content : List Nat)
    (bucket key : String) (metadata : List (String × String)) :
    Except PyError S3State :=
  if bucket ∈ s3.denied then .error .s3UploadFailedError
  else match s3.buckets.lookup bucket with
    | none => .error .s3UploadFailedError
    | some objs =>
      .ok ⟨(bucket, (key, ⟨content, metadata⟩) :: objs) :: s3.buckets, s3.denied⟩

/-- `head_object`: return the stored metadata map; ClientError 404 when
the bucket or the key is missing, 403 when access is denied. -/
def head_object (s3 : S3State) (bucket key : String) :
    Except PyError (List (String × String)) :=
  if bucket ∈ s3.denied then .error (.clientError "403")
  else match lookupObject s3 bucket key with
    | none => .error (.clientError "404")
    | some obj => .ok obj.metadata

/-! ## os.path (POSIX semantics, as used by the repository) -/

def basenameAux (acc : List Char) : List Char → List Char
  | [] => acc
  | c :: rest => if c = '/' then basenameAux [] rest else basenameAux (acc ++ [c]) rest

/-- `os.path.basename`: the final path component, i.e. everything after
the last slash. -/
def os_path_basename (p : String) : String := String.mk (basenameAux [] p.data)

/-- `os.path.join(a, b)` with two arguments: `b` when `b` is absolute,
otherwise `a` and `b` separated by a slash unless `a` is empty or already
ends in a slash. -/
def os_path_join (a b : String) : String :=
  if b.data.head? = some '/' then b
  else if a = "" ∨ a.data.getLast? = some '/' then a ++ b
  else a ++ "/" ++ b

/-! ## hashlib model and calculate_md5 -/

/-- `hashlib.md5().update(chunk)`: append the chunk to the bytes fed so
far (documented hashlib semantics). -/
def md5Update (acc chunk : List Nat) : List Nat := acc ++ chunk

/-- `hexdigest()`: the MD5 hex digest of the accumulated bytes. -/
def md5Hexdigest (acc : List Nat) : String := md5Hex acc

/-- The read loop of `calculate_md5`: feed the file content into a fresh
accumulator in chunks of `chunkSize` bytes. -/
def hashlibFeed (chunkSize : Nat) (content : List Nat) : List Nat :=
  (chunksOf chunkSize content).foldl md5Update []

/-- `calculate_md5` (defined identically in `s3_services.py`,
`scripts/upload_file_to_s3.py` and `scripts/download_file_from_s3.py`):
open the file for binary read, feed it to the hash in 4096-byte chunks,
return the hex digest.  `open` raises FileNotFoundError when the path is
missing. -/
def calculate_md5 (fs : FileSystem) (file_path : String) :
    Except PyError String :=
  match fs.lookup file_path with
  | none => .error .fileNotFoundError
  | some content => .ok (md5Hexdigest (hashlibFeed 4096 content))

/-! ## The service operations (`src/services/s3_services.py`)

Remote calls issued by an operation are recorded in a trace list, so
that short-circuit claims (no transfer call after a failed bucket check,
no metadata fetch after a failed digest) can be stated. -/

/-- A remote call issued to the backend. -/
inductive BackendCall
  | headBucket (bucket : String)
  | downloadFile (bucket key path : String)
  | headObject (bucket key : String)
  | uploadFile (bucket key : String)
deriving DecidableEq, Repr

/-- `S3FileService.upload_file_to_s3`: compute the local MD5 digest, then
upload the file with metadata `md5 = digest`.  Every except branch
(FileNotFoundError, S3UploadFailedError, Exception) logs and re-raises,
so each failure propagates unchanged.  The file is read twice, once by
`calculate_md5` and once by `upload_file`. -/
def upload_file_to_s3 (s3 : S3State) (fs : FileSystem)
    (file_path bucket_name s3_key : String) :
    Except PyError S3State × List BackendCall :=
  match calculate_md5 fs file_path with
  | .error e => (.error e, [])
  | .ok local_md5 =>
    match fs.lookup file_path with
    | none => (.error .fileNotFoundError, [])
    | some content =>
      match s3_upload_file s3 content bucket_name s3_key [("md5", local_md5)] with
      | .error e => (.error e, [.uploadFile bucket_name s3_key])
      | .ok s3a => (.ok s3a, [.uploadFile bucket_name s3_key])

/-- `S3FileService.download_file_from_s3`: ensure the download directory
exists (directories are not modelled), check the bucket with
`head_bucket`, then call `download_file` writing to
`os.path.join(download_dir, os.path.basename(s3_key))`.  Every except
branch of the bucket check (404, 403, other), of the transfer (404,
other) and of the outer handler logs and re-raises, so each failure
propagates unchanged. -/
def download_file_from_s3 (s3 : S3State) (fs : FileSystem)
    (s3_key bucket_name download_dir : String) :
    Except PyError FileSystem × List BackendCall :=
  match head_bucket s3 bucket_name with
  | .error e => (.error e, [.headBucket bucket_name])
  | .ok _ =>
    match s3_download_file s3 fs bucket_name s3_key
        (os_path_join download_dir (os_path_basename s3_key)) with
    | .error e =>
      (.error e, [.headBucket bucket_name,
        .downloadFile bucket_name s3_key
          (os_path_join download_dir (os_path_basename s3_key))])
    | .ok fs2 =>
      (.ok fs2, [.headBucket bucket_name,
        .downloadFile bucket_name s3_key
          (os_path_join download_dir (os_path_basename s3_key))])

/-- What `list_files_in_s3_bucket` reports: it logs one `(key, size)`
line per object (paginated; pagination is a backend concern and is
modelled as a single pass), then logs a distinct `Bucket is empty.`
message when no object was found.  ClientError from listing is re-raised
by the service version.  The result is the logged listing together with
whether the empty-bucket message was printed. -/
def list_files_in_s3_bucket (s3 : S3State) (bucket_name : String) :
    Except PyError (List (String × Nat) × Bool) :=
  if bucket_name ∈ s3.denied then .error (.clientError "403")
  else match s3.buckets.lookup bucket_name with
    | none => .error (.clientError "404")
    | some objs =>
      .ok (objs.map fun kv => (kv.fst, kv.snd.data.length),
        (objs.map fun kv => (kv.fst, kv.snd.data.length)).isEmpty)

/-- What the verifier prints: verified on digest equality, a corruption
warning otherwise. -/
inductive VerifyReport
  | verified
  | mismatch
deriving DecidableEq, Repr

/-- `check__integrity` (the service method and the script function in
`scripts/download_file_from_s3.py` are the same logic line for line):
compute the local MD5 digest, fetch the stored metadata with
`head_object`, index the metadata map at key md5 (KeyError when the key
is absent), then compare the two digest strings, printing verified on
equality and the corruption warning otherwise.  There is no handler:
every exception propagates to the caller. -/
def check__integrity (s3 : S3State) (fs : FileSystem)
    (file_path bucket_name s3_key : String) :
    Except PyError VerifyReport × List BackendCall :=
  match calculate_md5 fs file_path with
  | .error e => (.error e, [])
  | .ok local_md5 =>
    match head_object s3 bucket_name s3_key with
    | .error e => (.error e, [.headObject bucket_name s3_key])
    | .ok metadata =>
      match metadata.lookup "md5" with
      | none => (.error .keyError, [.headObject bucket_name s3_key])
      | some remote_md5 =>
        if local_md5 = remote_md5 then
          (.ok .verified, [.headObject bucket_name s3_key])
        else
          (.ok .mismatch, [.headObject bucket_name s3_key])

/-! ## The script operations (`src/scripts/`) -/

/-- What `scripts/upload_file_to_s3.upload_file_to_s3` prints before
returning. -/
inductive ScriptUploadReport
  | success
  | fileNotFound
  | uploadFailed
  | clientErr
  | unexpectedError
deriving DecidableEq, Repr

/-- `scripts/upload_file_to_s3.upload_file_to_s3`: same body as the
service method, but the except branches (FileNotFoundError,
S3UploadFailedError, ClientError, Exception) only print a message and
fall through, so the function always returns normally (`.ok`), leaving
the backend unchanged on failure; no exception escapes. -/
def scripts_upload_file_to_s3 (s3 : S3State) (fs : FileSystem)
    (file_path bucket_name s3_key : String) :
    Except PyError (ScriptUploadReport × S3State) :=
  match calculate_md5 fs file_path with
  | .error .fileNotFoundError => .ok (.fileNotFound, s3)
  | .error .s3UploadFailedError => .ok (.uploadFailed, s3)
  | .error (.clientError _) => .ok (.clientErr, s3)
  | .error .keyError => .ok (.unexpectedError, s3)
  | .ok local_md5 =>
    match fs.lookup file_path with
    | none => .ok (.fileNotFound, s3)
    | some content =>
      match s3_upload_file s3 content bucket_name s3_key [("md5", local_md5)] with
      | .error .fileNotFoundError => .ok (.fileNotFound, s3)
      | .error .s3UploadFailedError => .ok (.uploadFailed, s3)
      | .error (.clientError _) => .ok (.clientErr, s3)
      | .error .keyError => .ok (.unexpectedError, s3)
      | .ok s3a => .ok (.success, s3a)

/-- What `scripts/download_file_from_s3.download_file_from_s3` prints
before returning. -/
inductive ScriptDownloadReport
  | success
  | bucketMissing
  | accessDenied
  | objectMissing
  | unexpectedError
deriving DecidableEq, Repr

/-- `scripts/download_file_from_s3.download_file_from_s3`: computes
`download_path = os.path.join(download_dir, s3_key)` (the full key, no
basename), checks the bucket (printing and returning on 404 or 403),
then transfers (printing and returning on a missing key); any other
exception reaches the outer handler, which prints and returns.  The
function always returns normally (`.ok`); no exception escapes. -/
def scripts_download_file_from_s3 (s3 : S3State) (fs : FileSystem)
    (bucket_name s3_key download_dir : String) :
    Except PyError (ScriptDownloadReport × FileSystem) × List BackendCall :=
  match head_bucket s3 bucket_name with
  | .error (.clientError code) =>
    if code = "404" ∨ code = "NoSuchBucket" then
      (.ok (.bucketMissing, fs), [.headBucket bucket_name])
    else if code = "403" ∨ code = "AccessDenied" then
      (.ok (.accessDenied, fs), [.headBucket bucket_name])
    else (.ok (.unexpectedError, fs), [.headBucket bucket_name])
  | .error _ => (.ok (.unexpectedError, fs), [.headBucket bucket_name])
  | .ok _ =>
    match s3_download_file s3 fs bucket_name s3_key
        (os_path_join download_dir s3_key) with
    | .ok fs2 =>
      (.ok (.success, fs2), [.headBucket bucket_name,
        .downloadFile bucket_name s3_key (os_path_join download_dir s3_key)])
    | .error (.clientError code) =>
      if code = "404" ∨ code = "NoSuchKey" then
        (.ok (.objectMissing, fs), [.headBucket bucket_name,
          .downloadFile bucket_name s3_key (os_path_join download_dir s3_key)])
      else
        (.ok (.unexpectedError, fs), [.headBucket bucket_name,
          .downloadFile bucket_name s3_key (os_path_join download_dir s3_key)])
    | .error _ =>
      (.ok (.unexpectedError, fs), [.headBucket bucket_name,
        .downloadFile bucket_name s3_key (os_path_join download_dir s3_key)])

deriving instance DecidableEq for Except

/-! ## Helper lemmas -/

/-- Folding the hashlib update over the chunks of `l` feeds exactly
`acc ++ l`, for any positive chunk size and enough fuel. -/
theorem chunksOfAux_foldl_update (fuel n : Nat) (hn : 0 < n) :
    ∀ l acc : List Nat, l.length ≤ fuel →
      (chunksOfAux fuel n l).foldl md5Update acc = acc ++ l := by
  induction fuel with
  | zero =>
    intro l acc h
    cases l with
    | nil => simp [chunksOfAux]
    | cons a t => simp at h
  | succ fuel ih =>
    intro l acc h
    cases l with
    | nil => simp [chunksOfAux]
    | cons a t =>
      have hlen : (List.drop n (a :: t)).length ≤ fuel := by
        simp only [List.length_drop]
        omega
      calc (chunksOfAux (fuel + 1) n (a :: t)).foldl md5Update acc
          = (chunksOfAux fuel n (List.drop n (a :: t))).foldl md5Update
              (md5Update acc (List.take n (a :: t))) := by
            simp [chunksOfAux]
        _ = acc ++ (a :: t) := by
            rw [ih (List.drop n (a :: t)) _ hlen]
            simp [md5Update, List.append_assoc]

/-- For any positive chunk size, the chunked read loop feeds the whole
content. -/
theorem hashlibFeed_eq_content (n : Nat) (hn : 0 < n) (content : List Nat) :
    hashlibFeed n content = content := by
  have := chunksOfAux_foldl_update content.length n hn content [] (Nat.le_refl _)
  simpa [hashlibFeed, chunksOf] using this

/-! ## Claims -/

/-- C6: for every byte content, the digest produced by the chunked read
loop is independent of the chunk size: any positive chunk size yields the
digest of hashing the whole content at once, so chunking at 1 byte and at
4096 bytes yield the identical digest string. -/
theorem digest_independent_of_chunk_size (content : List Nat) (n : Nat)
    (hn : 0 < n) :
    md5Hexdigest (hashlibFeed n content) = md5Hex content ∧
    md5Hexdigest (hashlibFeed 1 content) =
      md5Hexdigest (hashlibFeed 4096 content) := by
  rw [hashlibFeed_eq_content n hn, hashlibFeed_eq_content 1 (by decide),
    hashlibFeed_eq_content 4096 (by decide)]
  exact ⟨rfl, rfl⟩

/-- Witness for C6 at content `abc` and chunk size 3. -/
theorem digest_independent_of_chunk_size_witness :
    0 < 3 ∧
    (md5Hexdigest (hashlibFeed 3 [97, 98, 99]) = md5Hex [97, 98, 99] ∧
      md5Hexdigest (hashlibFeed 1 [97, 98, 99]) =
        md5Hexdigest (hashlibFeed 4096 [97, 98, 99])) :=
  ⟨by decide, digest_independent_of_chunk_size [97, 98, 99] 3 (by decide)⟩

/-- C8: computing the digest twice over the same bytes yields the same
string; the embedded `calculate_md5` is a pure function of the filesystem
and the path, so two runs coincide. -/
theorem calculate_md5_deterministic (fs : FileSystem) (file_path : String) :
    calculate_md5 fs file_path = calculate_md5 fs file_path ∧
    ∀ content : List Nat,
      md5Hexdigest (hashlibFeed 4096 content) =
        md5Hexdigest (hashlibFeed 4096 content) :=
  ⟨rfl, fun _ => rfl⟩

/-- C10 as stated is false: the digest of the empty byte string is
`d41d8cd98f00b204e9800998ecf8427e`, not the claimed
`d41d8cd98f00b204e9800998ecfe8427` (final `e` misplaced). -/
theorem empty_file_digest_constant_wrong :
    calculate_md5 [("empty.bin", [])] "empty.bin" ≠
      .ok "d41d8cd98f00b204e9800998ecfe8427" := by decide

/-- C10 amended: for a readable local file of zero bytes, `calculate_md5`
succeeds (the chunked read loop performs zero updates) and returns the
32-character MD5 digest of the empty byte string,
`d41d8cd98f00b204e9800998ecf8427e`. -/
theorem calculate_md5_empty_file (fs : FileSystem) (p : String)
    (h : fs.lookup p = some []) :
    calculate_md5 fs p = .ok "d41d8cd98f00b204e9800998ecf8427e" ∧
    chunksOf 4096 [] = [] ∧
    (md5Hexdigest (hashlibFeed 4096 [])).length = 32 := by
  refine ⟨?_, by decide, by decide⟩
  have hd : md5Hexdigest (hashlibFeed 4096 []) =
      "d41d8cd98f00b204e9800998ecf8427e" := by decide
  simp [calculate_md5, h, hd]

/-- Witness for C10 (amended) at a one-file filesystem holding an empty
file. -/
theorem calculate_md5_empty_file_witness :
    List.lookup "empty.bin" [("empty.bin", ([] : List Nat))] = some [] ∧
    (calculate_md5 [("empty.bin", [])] "empty.bin" =
        .ok "d41d8cd98f00b204e9800998ecf8427e" ∧
      chunksOf 4096 [] = [] ∧
      (md5Hexdigest (hashlibFeed 4096 [])).length = 32) :=
  ⟨by decide, calculate_md5_empty_file [("empty.bin", [])] "empty.bin" (by decide)⟩

/-- C7: when the local file path does not exist, the verifier fails with
FileNotFoundError from the digest computation, propagated before any
metadata fetch: the trace of remote calls is empty, so in particular no
head_object call is made. -/
theorem check_integrity_missing_local_file (s3 : S3State) (fs : FileSystem)
    (file_path bucket_name s3_key : String)
    (h : fs.lookup file_path = none) :
    (check__integrity s3 fs file_path bucket_name s3_key).fst =
        .error .fileNotFoundError ∧
    (check__integrity s3 fs file_path bucket_name s3_key).snd = [] ∧
    ∀ b k, BackendCall.headObject b k ∉
      (check__integrity s3 fs file_path bucket_name s3_key).snd := by
  simp [check__integrity, calculate_md5, h]

/-- Witness for C7: empty filesystem, arbitrary concrete names. -/
theorem check_integrity_missing_local_file_witness :
    List.lookup "dl/f.csv" ([] : FileSystem) = none ∧
    ((check__integrity ⟨[("b", [])], []⟩ [] "dl/f.csv" "b" "f.csv").fst =
        .error .fileNotFoundError ∧
      (check__integrity ⟨[("b", [])], []⟩ [] "dl/f.csv" "b" "f.csv").snd = [] ∧
      ∀ b k, BackendCall.headObject b k ∉
        (check__integrity ⟨[("b", [])], []⟩ [] "dl/f.csv" "b" "f.csv").snd) :=
  ⟨by decide,
    check_integrity_missing_local_file ⟨[("b", [])], []⟩ [] "dl/f.csv" "b"
      "f.csv" (by decide)⟩

/-- C2: when the stored object exists but its metadata map has no md5
key (and the local file is readable, so the digest step passes), the
verifier fails with KeyError — the distinct MissingIntegrityRecord
failure — and reports neither a mismatch nor a pass. -/
theorem check_integrity_missing_record (s3 : S3State) (fs : FileSystem)
    (file_path bucket_name s3_key : String) (content : List Nat)
    (obj : S3Object)
    (hf : fs.lookup file_path = some content)
    (hb : bucket_name ∉ s3.denied)
    (ho : lookupObject s3 bucket_name s3_key = some obj)
    (hm : obj.metadata.lookup "md5" = none) :
    (check__integrity s3 fs file_path bucket_name s3_key).fst =
        .error .keyError ∧
    (check__integrity s3 fs file_path bucket_name s3_key).fst ≠
        .ok .mismatch ∧
    (check__integrity s3 fs file_path bucket_name s3_key).fst ≠
        .ok .verified := by
  simp [check__integrity, calculate_md5, head_object, hf, hb, ho, hm]

/-- Witness for C2: an object stored with empty metadata. -/
theorem check_integrity_missing_record_witness :
    List.lookup "dl/f" [("dl/f", [97])] = some [97] ∧
    ("b" ∉ (⟨[("b", [("f", ⟨[97], []⟩)])], []⟩ : S3State).denied) ∧
    lookupObject ⟨[("b", [("f", ⟨[97], []⟩)])], []⟩ "b" "f" =
      some ⟨[97], []⟩ ∧
    List.lookup "md5" (S3Object.mk [97] []).metadata = none ∧
    (check__integrity ⟨[("b", [("f", ⟨[97], []⟩)])], []⟩ [("dl/f", [97])]
        "dl/f" "b" "f").fst = .error .keyError :=
  ⟨by decide, by decide, by decide, by decide,
    (check_integrity_missing_record ⟨[("b", [("f", ⟨[97], []⟩)])], []⟩
      [("dl/f", [97])] "dl/f" "b" "f" [97] ⟨[97], []⟩ (by decide) (by decide)
      (by decide) (by decide)).1⟩

/-- C9: listing a container that exists and holds no objects terminates
normally with the empty listing and the distinct empty signal set; an
empty container is never reported as an error. -/
theorem list_empty_bucket (s3 : S3State) (bucket_name : String)
    (hb : bucket_name ∉ s3.denied)
    (h : s3.buckets.lookup bucket_name = some []) :
    list_files_in_s3_bucket s3 bucket_name = .ok ([], true) := by
  simp [list_files_in_s3_bucket, hb, h]

/-- Witness for C9: one empty bucket. -/
theorem list_empty_bucket_witness :
    ("b" ∉ (⟨[("b", [])], []⟩ : S3State).denied) ∧
    List.lookup "b" (⟨[("b", [])], []⟩ : S3State).buckets = some [] ∧
    list_files_in_s3_bucket ⟨[("b", [])], []⟩ "b" = .ok ([], true) :=
  ⟨by decide, by decide,
    list_empty_bucket ⟨[("b", [])], []⟩ "b" (by decide) (by decide)⟩

/-- C5: when the container-existence check reports the container missing
(head_bucket raises ClientError 404), the service download fails with
that error and the script download reports the distinct bucket-missing
outcome leaving the filesystem unchanged; in both cases the trace
contains no download_file call: no transfer is ever issued. -/
theorem download_missing_bucket_short_circuits (s3 : S3State)
    (fs : FileSystem) (s3_key bucket_name download_dir : String)
    (hb : bucket_name ∉ s3.denied)
    (h : s3.buckets.lookup bucket_name = none) :
    (download_file_from_s3 s3 fs s3_key bucket_name download_dir).fst =
        .error (.clientError "404") ∧
    (∀ b k p, BackendCall.downloadFile b k p ∉
      (download_file_from_s3 s3 fs s3_key bucket_name download_dir).snd) ∧
    (scripts_download_file_from_s3 s3 fs bucket_name s3_key download_dir).fst =
        .ok (.bucketMissing, fs) ∧
    (∀ b k p, BackendCall.downloadFile b k p ∉
      (scripts_download_file_from_s3 s3 fs bucket_name s3_key download_dir).snd) := by
  simp [download_file_from_s3, scripts_download_file_from_s3, head_bucket,
    hb, h]

/-- Witness for C5: a backend with a single, different bucket. -/
theorem download_missing_bucket_short_circuits_witness :
    ("missing" ∉ (⟨[("b", [])], []⟩ : S3State).denied) ∧
    List.lookup "missing" (⟨[("b", [])], []⟩ : S3State).buckets = none ∧
    ((download_file_from_s3 ⟨[("b", [])], []⟩ [] "f.csv" "missing" "dl").fst =
        .error (.clientError "404") ∧
      (∀ b k p, BackendCall.downloadFile b k p ∉
        (download_file_from_s3 ⟨[("b", [])], []⟩ [] "f.csv" "missing" "dl").snd) ∧
      (scripts_download_file_from_s3 ⟨[("b", [])], []⟩ [] "missing" "f.csv" "dl").fst =
        .ok (.bucketMissing, []) ∧
      (∀ b k p, BackendCall.downloadFile b k p ∉
        (scripts_download_file_from_s3 ⟨[("b", [])], []⟩ [] "missing" "f.csv" "dl").snd)) :=
  ⟨by decide, by decide,
    download_missing_bucket_short_circuits ⟨[("b", [])], []⟩ [] "f.csv"
      "missing" "dl" (by decide) (by decide)⟩

/-- C4 is false as stated for the script-level download: with object key
`a/f.bin` and destination `dl`, the script succeeds but writes to
`dl/a/f.bin`, the join of the destination with the full key, while the
join with the base name would be `dl/f.bin`, where no file appears. -/
theorem script_download_path_not_basename :
    (scripts_download_file_from_s3 ⟨[("b", [("a/f.bin", ⟨[1, 2], []⟩)])], []⟩
        [] "b" "a/f.bin" "dl").fst =
      .ok (.success, [("dl/a/f.bin", [1, 2])]) ∧
    os_path_join "dl" (os_path_basename "a/f.bin") = "dl/f.bin" ∧
    List.lookup "dl/f.bin" [("dl/a/f.bin", [1, 2])] = none ∧
    "dl/a/f.bin" ≠ "dl/f.bin" := by decide

/-- C4 amended: a successful service-layer download writes the object
data to exactly the path obtained by joining the destination directory
with the base name of the object key, leaving the rest of the filesystem
unchanged; the script-level download instead writes to the join of the
destination directory with the full object key (the two coincide only
when the key has no slash). -/
theorem download_writes_basename_path (s3 : S3State) (fs fs2 : FileSystem)
    (s3_key bucket_name download_dir : String)
    (h : (download_file_from_s3 s3 fs s3_key bucket_name download_dir).fst =
      .ok fs2) :
    ∃ obj, lookupObject s3 bucket_name s3_key = some obj ∧
      fs2 = (os_path_join download_dir (os_path_basename s3_key),
        obj.data) :: fs := by
  unfold download_file_from_s3 at h
  split at h
  · simp at h
  · rename_i u heq
    unfold s3_download_file at h
    split at h
    · simp at h
    · rename_i fsx hdl
      simp only [Except.ok.injEq] at h
      split at hdl
      · simp at hdl
      · split at hdl
        · simp at hdl
        · rename_i obj ho
          simp only [Except.ok.injEq] at hdl
          exact ⟨obj, ho, by rw [← h, ← hdl]⟩

/-- Witness for C4 (amended) at a one-object backend with a slashed key. -/
theorem download_writes_basename_path_witness :
    (download_file_from_s3 ⟨[("b", [("a/f.bin", ⟨[1, 2], []⟩)])], []⟩ []
        "a/f.bin" "b" "dl").fst = .ok [("dl/f.bin", [1, 2])] ∧
    ∃ obj, lookupObject ⟨[("b", [("a/f.bin", ⟨[1, 2], []⟩)])], []⟩ "b"
        "a/f.bin" = some obj ∧
      [("dl/f.bin", [1, 2])] =
        (os_path_join "dl" (os_path_basename "a/f.bin"), obj.data) :: [] :=
  ⟨by decide,
    download_writes_basename_path ⟨[("b", [("a/f.bin", ⟨[1, 2], []⟩)])], []⟩
      [] [("dl/f.bin", [1, 2])] "a/f.bin" "b" "dl" (by decide)⟩

/-- C3 is false as stated for the script-level upload: with the local
file missing the upload fails (a FileNotFoundError message is printed),
but the except branch does not re-raise — the function returns normally
(`.ok`) with the backend unchanged, so the failure never reaches the
caller as an error. -/
theorem script_upload_absorbs_failure :
    List.lookup "data/covid.csv" ([] : FileSystem) = none ∧
    scripts_upload_file_to_s3 ⟨[("b", [])], []⟩ [] "data/covid.csv" "b"
        "covid.csv" = .ok (.fileNotFound, ⟨[("b", [])], []⟩) := by decide

/-- C3 amended: the service-layer upload returns normally exactly when
the local file exists and the backend accepts the transfer (the bucket
exists and is not denied); in every other case the result is a raised
error, so the service absorbs no failure.  The script-level upload, by
contrast, logs failures and returns normally. -/
theorem upload_ok_iff_success (s3 : S3State) (fs : FileSystem)
    (file_path bucket_name s3_key : String) :
    (∃ s3a, (upload_file_to_s3 s3 fs file_path bucket_name s3_key).fst =
        .ok s3a) ↔
      ((∃ content, fs.lookup file_path = some content) ∧
        bucket_name ∉ s3.denied ∧
        ∃ objs, s3.buckets.lookup bucket_name = some objs) := by
  cases hf : fs.lookup file_path with
  | none => simp [upload_file_to_s3, calculate_md5, hf]
  | some c =>
    by_cases hd : bucket_name ∈ s3.denied
    · simp [upload_file_to_s3, calculate_md5, s3_upload_file, hf, hd]
    · cases hbk : s3.buckets.lookup bucket_name with
      | none =>
        simp [upload_file_to_s3, calculate_md5, s3_upload_file, hf, hd, hbk]
      | some objs =>
        simp [upload_file_to_s3, calculate_md5, s3_upload_file, hf, hd, hbk]

/-- First message of the classic MD5 collision pair (Wang et al.): 128
bytes. -/
def collMsg1 : List Nat :=
  [209, 49, 221, 2, 197, 230, 238, 196, 105, 61, 154, 6, 152, 175, 249, 92,
   47, 202, 181, 135, 18, 70, 126, 171, 64, 4, 88, 62, 184, 251, 127, 137,
   85, 173, 52, 6, 9, 244, 179, 2, 131, 228, 136, 131, 37, 113, 65, 90,
   8, 81, 37, 232, 247, 205, 201, 159, 217, 29, 189, 242, 128, 55, 60, 91,
   216, 130, 62, 49, 86, 52, 143, 91, 174, 109, 172, 212, 54, 201, 25, 198,
   221, 83, 226, 180, 135, 218, 3, 253, 2, 57, 99, 6, 210, 72, 205, 160,
   233, 159, 51, 66, 15, 87, 126, 232, 206, 84, 182, 112, 128, 168, 13, 30,
   198, 152, 33, 188, 182, 168, 131, 147, 150, 249, 101, 43, 111, 247, 42, 112]

/-- Second message of the collision pair: differs from `collMsg1` in six
bytes yet has the same MD5 digest. -/
def collMsg2 : List Nat :=
  [209, 49, 221, 2, 197, 230, 238, 196, 105, 61, 154, 6, 152, 175, 249, 92,
   47, 202, 181, 7, 18, 70, 126, 171, 64, 4, 88, 62, 184, 251, 127, 137,
   85, 173, 52, 6, 9, 244, 179, 2, 131, 228, 136, 131, 37, 241, 65, 90,
   8, 81, 37, 232, 247, 205, 201, 159, 217, 29, 189, 114, 128, 55, 60, 91,
   216, 130, 62, 49, 86, 52, 143, 91, 174, 109, 172, 212, 54, 201, 25, 198,
   221, 83, 226, 52, 135, 218, 3, 253, 2, 57, 99, 6, 210, 72, 205, 160,
   233, 159, 51, 66, 15, 87, 126, 232, 206, 84, 182, 112, 128, 40, 13, 30,
   198, 152, 33, 188, 182, 168, 131, 147, 150, 249, 101, 171, 111, 247, 42, 112]

/-- The backend state produced by uploading `collMsg2` as `f.bin` into
bucket `b`: the Transfer Record holds the digest of `collMsg2`. -/
def collS3 : S3State :=
  ⟨[("b", [("f.bin", ⟨collMsg2,
      [("md5", md5Hexdigest (hashlibFeed 4096 collMsg2))]⟩)]), ("b", [])], []⟩

/-- C1 is false as stated: after uploading `collMsg2` (so the stored
Transfer Record is the digest of `collMsg2`), a downloaded file whose
bytes are `collMsg1` differs from the uploaded bytes, yet the verifier
reports verified, not mismatch — the two byte lists are an MD5
collision. -/
theorem check_integrity_collision_false_positive :
    collMsg1 ≠ collMsg2 ∧
    (upload_file_to_s3 ⟨[("b", [])], []⟩ [("data/f.bin", collMsg2)]
        "data/f.bin" "b" "f.bin").fst = .ok collS3 ∧
    (check__integrity collS3 [("dl/f.bin", collMsg1)] "dl/f.bin" "b"
        "f.bin").fst = .ok .verified ∧
    (check__integrity collS3 [("dl/f.bin", collMsg1)] "dl/f.bin" "b"
        "f.bin").fst ≠ .ok .mismatch :=
  ⟨by decide, by decide, by decide, by decide⟩

/-- C1 amended: whenever the MD5 digest of the downloaded file differs
from the digest recorded in the Transfer Record, the verifier reports
mismatch and never verified; bytes that differ are caught exactly when
their digests differ (one-byte truncation in particular changes the
digest in the witness below), but an MD5 collision passes. -/
theorem check_integrity_digest_mismatch (s3 : S3State) (fs : FileSystem)
    (file_path bucket_name s3_key : String) (content : List Nat)
    (obj : S3Object) (remote : String)
    (hf : fs.lookup file_path = some content)
    (hb : bucket_name ∉ s3.denied)
    (ho : lookupObject s3 bucket_name s3_key = some obj)
    (hm : obj.metadata.lookup "md5" = some remote)
    (hne : md5Hexdigest (hashlibFeed 4096 content) ≠ remote) :
    (check__integrity s3 fs file_path bucket_name s3_key).fst =
        .ok .mismatch ∧
    (check__integrity s3 fs file_path bucket_name s3_key).fst ≠
        .ok .verified := by
  simp [check__integrity, calculate_md5, head_object, hf, hb, ho, hm, hne]

/-- Witness for C1 (amended): the spec scenario bytes `covid,data`,
newline, `1,2`, newline, truncated by one byte after download, against
the Transfer Record written for the full content: the digests differ and
the verifier reports mismatch. -/
theorem check_integrity_digest_mismatch_witness :
    List.lookup "dl/covid_data.csv"
        [("dl/covid_data.csv",
          [99, 111, 118, 105, 100, 44, 100, 97, 116, 97, 10, 49, 44, 50])] =
      some [99, 111, 118, 105, 100, 44, 100, 97, 116, 97, 10, 49, 44, 50] ∧
    md5Hexdigest (hashlibFeed 4096
        [99, 111, 118, 105, 100, 44, 100, 97, 116, 97, 10, 49, 44, 50]) ≠
      "af813c28448423fda43496832dc58ca7" ∧
    (check__integrity
        ⟨[("b", [("covid_data.csv", ⟨[99, 111, 118, 105, 100, 44, 100, 97,
            116, 97, 10, 49, 44, 50, 10],
          [("md5", "af813c28448423fda43496832dc58ca7")]⟩)])], []⟩
        [("dl/covid_data.csv",
          [99, 111, 118, 105, 100, 44, 100, 97, 116, 97, 10, 49, 44, 50])]
        "dl/covid_data.csv" "b" "covid_data.csv").fst = .ok .mismatch :=
  ⟨by decide, by decide,
    (check_integrity_digest_mismatch
      ⟨[("b", [("covid_data.csv", ⟨[99, 111, 118, 105, 100, 44, 100, 97,
          116, 97, 10, 49, 44, 50, 10],
        [("md5", "af813c28448423fda43496832dc58ca7")]⟩)])], []⟩
      [("dl/covid_data.csv",
        [99, 111, 118, 105, 100, 44, 100, 97, 116, 97, 10, 49, 44, 50])]
      "dl/covid_data.csv" "b" "covid_data.csv"
      [99, 111, 118, 105, 100, 44, 100, 97, 116, 97, 10, 49, 44, 50]
      ⟨[99, 111, 118, 105, 100, 44, 100, 97, 116, 97, 10, 49, 44, 50, 10],
        [("md5", "af813c28448423fda43496832dc58ca7")]⟩
      "af813c28448423fda43496832dc58ca7" (by decide) (by decide) (by decide)
      (by decide) (by decide)).1⟩
